import Mathlib

/-!
Verification development for the Fortune sweep-line Voronoi engine in
`voronoi.cpp`.  The C++ code is shallowly embedded: coordinates become exact
rationals, site pointers become indices into the input arena (the spec reads
pointer identity as "arena + index"), the `std::set` containers become sorted
lists manipulated through their comparators, and assertion failures, thrown
exceptions and out-of-bounds accesses become `Except.error` results.
-/

namespace Vor

/-- A 2-d point with exact rational coordinates.  The source stores floating
point coordinates; the embedding uses `ℚ` so that every predicate is exact. -/
structure Point where
  x : ℚ
  y : ℚ
deriving DecidableEq, Repr

/-- Squaring helper, `sqr` in `voronoi.cpp`. -/
def sqr (v : ℚ) : ℚ := v * v

/-- The branch-selection tolerance `0.0000001` used throughout
`voronoi.cpp`. -/
def eps : ℚ := 1 / 10000000

/-- Rational square root standing in for the C `sqrt` calls.  It is exact on
rationals that are squares (numerator and denominator of the reduced form are
then both perfect squares); every concrete evaluation in this development
happens at a perfect square.  Other inputs yield the floor-style value,
standing in for the inexact float result. -/
def ratSqrt (q : ℚ) : ℚ :=
  (Nat.sqrt q.num.toNat : ℚ) / (Nat.sqrt q.den : ℚ)

/-- Modelled from the spec: the external geometry helper `distance2d`
(declared in `geometry.h`, outside this repository; spec section 1 lists
"the 2D point type and basic distance helpers" as external collaborators) is
the Euclidean distance between two points. -/
def distance2d (a b : Point) : ℚ :=
  ratSqrt (sqr (a.x - b.x) + sqr (a.y - b.y))

/-- The orientation / perp sign predicate `perp` from `voronoi.cpp`. -/
def perp (pt v0 v1 : Point) : ℚ :=
  (pt.x - v1.x) * (v0.y - v1.y) - (pt.y - v1.y) * (v0.x - v1.x)

/-- `orderPoints` from `voronoi.cpp`: the three compare-and-swap steps that
sort three site pointers.  Pointers are embedded as arena indices, so pointer
comparison is index comparison. -/
def orderPoints (a b c : Nat) : Nat × Nat × Nat :=
  let s1 : Nat × Nat := if a > b then (b, a) else (a, b)
  let s2 : Nat × Nat := if s1.2 > c then (c, s1.2) else (s1.2, c)
  let s3 : Nat × Nat := if s1.1 > s2.1 then (s2.1, s1.1) else (s1.1, s2.1)
  (s3.1, s3.2, s2.2)

/-- The inline two-pointer sort performed by the pair overload of
`Voronoi::Implementation::getNode` (`if(ptA > ptB) std::swap(ptA, ptB)`). -/
def orderPair (a b : Nat) : Nat × Nat :=
  if a > b then (b, a) else (a, b)

/-- A breakpoint on the beach line, `Intersection` in the source.  A `none`
side is the `nullptr` sentinel. -/
structure Intersection where
  pt_left : Option Nat
  pt_right : Option Nat
deriving DecidableEq, Repr

/-- A circumcircle, `Circle` in the source. -/
structure Circle where
  center : Point
  radius : ℚ
deriving DecidableEq, Repr

/-- Dereference an optional site pointer in the arena `pts`.  The source
would dereference a null pointer here; all call sites guard or assert
non-null, so the default is unreachable. -/
def getPt (pts : Nat → Point) (o : Option Nat) : Point :=
  match o with
  | some i => pts i
  | none => ⟨0, 0⟩

/-- `getSign` from `voronoi.cpp`: the radical sign selected by the order of
the two parabolas of a breakpoint.  The source asserts both sides non-null;
the `0` default stands for that unreachable case. -/
def getSignI (pts : Nat → Point) (inter : Intersection) : ℚ :=
  match inter.pt_left, inter.pt_right with
  | some a, some b => if (pts a).y ≤ (pts b).y then 1 else -1
  | _, _ => 0

/-- The overload `getIntersection(float, const Point&, const Point&, float)`
from `voronoi.cpp`: intersection of the parabolas with foci `p` and `r` above
the directrix `sweep_y`, radical sign `sign`.  The source ends with
`assert(!isinf)` / `assert(!isnan)` on both coordinates (lines 554-557); in
exact arithmetic an infinity or NaN arises exactly from a zero denominator
or a negative square-root radicand, so each branch guards those cases with
an error (the guards of the second and fourth branch cannot fire, since the
first branch already caught `p.y - sweep_y = 0`, but they mirror the
asserts verbatim). -/
def getIntersectionPts (sweep_y : ℚ) (p r : Point) (sign : ℚ) : Except String Point :=
  let y_s := sweep_y
  if |p.y - sweep_y| < eps then
    -- parabola around p has no width, select the point on parabola r at p.x
    if r.y - y_s = 0 then .error "assert failed: intersection not finite"
    else
      let qx := p.x
      .ok { x := qx
            y := (1/2) * (sqr qx - 2*qx*r.x + sqr r.x + sqr r.y - sqr y_s) / (r.y - y_s) }
  else if |r.y - sweep_y| < eps then
    -- parabola around r has no width, select the point on parabola p at r.x
    if p.y - y_s = 0 then .error "assert failed: intersection not finite"
    else
      let qx := r.x
      .ok { x := qx
            y := (1/2) * (p.x*p.x + p.y*p.y - 2*p.x*qx + qx*qx - y_s*y_s) / (p.y - y_s) }
  else if |p.y - r.y| > eps then
    -- a site below the sweep would feed sqrt a negative value: NaN, assert
    if p.y - y_s < 0 ∨ r.y - y_s < 0 then .error "assert failed: intersection not finite"
    else
      let term1 := (p.y*r.x - p.x*r.y + (p.x - r.x)*y_s) / (p.y - r.y)
      let rad := ratSqrt (p.x*p.x + p.y*p.y - 2*p.x*r.x + r.x*r.x - 2*p.y*r.y + r.y*r.y)
        * ratSqrt (p.y - y_s) * ratSqrt (r.y - y_s) / (p.y - r.y)
      let qx := term1 + sign * |rad|
      .ok { x := qx
            y := (1/2) * (p.x*p.x + p.y*p.y - 2*p.x*qx + qx*qx - y_s*y_s) / (p.y - y_s) }
  else
    -- special case: x-coord is exactly in-between
    if p.y - y_s = 0 then .error "assert failed: intersection not finite"
    else
      let qx := (p.x + r.x) * (1/2)
      .ok { x := qx
            y := (1/2) * (sqr p.x + sqr p.y - 2*p.x*qx + sqr qx - sqr y_s) / (p.y - y_s) }

/-- The `Intersection` overload `getIntersection(float, const Intersection&)`.
Both sides are asserted non-null in the source. -/
def getIntersectionI (pts : Nat → Point) (sweep_y : ℚ) (inter : Intersection) :
    Except String Point :=
  match inter.pt_left, inter.pt_right with
  | some a, some b => getIntersectionPts sweep_y (pts a) (pts b) (getSignI pts inter)
  | _, _ => .error "assert failed: null side in intersection"

/-- `solveCircle` from `voronoi.cpp`: circumcircle of three points via the
closed-form centre, radius the distance from the centre to `p`.  Division by
zero (the colinear case) yields `0` in `ℚ`, standing in for the float
infinity that the source would produce. -/
def solveCircle (p q r : Point) : Circle :=
  let den := p.y*q.x - p.x*q.y - (p.y - q.y)*r.x + (p.x - q.x)*r.y
  let cx := (1/2) * (p.y*sqr q.x + p.y*sqr q.y - (p.y - q.y)*sqr r.x -
      (p.y - q.y)*sqr r.y - (sqr p.x + sqr p.y)*q.y +
      (sqr p.x + sqr p.y - sqr q.x - sqr q.y)*r.y) / den
  let cy := -(1/2) * (p.x*sqr q.x + p.x*sqr q.y - (p.x - q.x)*sqr r.x -
      (p.x - q.x)*sqr r.y - (sqr p.x + sqr p.y)*q.x +
      (sqr p.x + sqr p.y - sqr q.x - sqr q.y)*r.x) / den
  { center := ⟨cx, cy⟩
    radius := ratSqrt (sqr (p.x - cx) + sqr (p.y - cy)) }

/-- The beach-line comparator `BeachCompare::operator()` from `voronoi.cpp`,
parameterised by the shared sweep-y cell.  The branch structure follows the
source line by line; a comparison that would make `getIntersection` trip its
finiteness asserts propagates that abort.  The degenerate-probe branch
carries the source's `assert(rhs.pt_left != rhs.pt_right)`; its mirror
assert in the next branch cannot fire (the previous branch already caught a
degenerate `lhs`), and the no-null asserts of the last three branches are
implied by the sentinel branches above them. -/
def beachLess (pts : Nat → Point) (sweep : ℚ) (lhs rhs : Intersection) :
    Except String Bool :=
  if (lhs.pt_right = none ∧ rhs.pt_left = none) ∨
     (lhs.pt_right = none ∧ rhs.pt_right = none) ∨
     (lhs.pt_left = none ∧ rhs.pt_left = none) then .ok false
  else if lhs.pt_left = none ∨ rhs.pt_right = none then .ok true
  else if lhs.pt_right = none ∨ rhs.pt_left = none then .ok false
  else if lhs.pt_left = rhs.pt_left ∧ lhs.pt_right = rhs.pt_right then .ok false
  else if lhs.pt_right = rhs.pt_left ∧ lhs.pt_left = rhs.pt_right then
    .ok (if getSignI pts lhs < getSignI pts rhs then true else false)
  else if lhs.pt_left = lhs.pt_right then
    if rhs.pt_left = rhs.pt_right then
      .error "assert failed: two degenerate probes compared"
    else do
      let right ← getIntersectionI pts sweep rhs
      .ok (if (getPt pts lhs.pt_left).x < right.x then true else false)
  else if rhs.pt_left = rhs.pt_right then do
    let left ← getIntersectionI pts sweep lhs
    .ok (if left.x < (getPt pts rhs.pt_left).x then true else false)
  else do
    let left ← getIntersectionI pts sweep lhs
    let right ← getIntersectionI pts sweep rhs
    .ok (if left.x < right.x then true else false)

/-- Comparator equivalence, as used by `std::set::find`: neither element is
less than the other (either comparison may abort). -/
def beachEquiv (pts : Nat → Point) (sweep : ℚ) (a b : Intersection) :
    Except String Bool := do
  let b1 ← beachLess pts sweep a b
  let b2 ← beachLess pts sweep b a
  .ok (!b1 && !b2)

/-- Insertion into an ordered `std::set` represented as a sorted list: the
element goes in front of the first strictly greater entry; if an equivalent
entry exists the set is unchanged and the returned flag is `false` (the
`second` of the iterator-bool pair returned by `emplace`/`insert`). -/
def setInsertP {α : Type} (lt : α → α → Bool) : List α → α → List α × Bool
  | [], x => ([x], true)
  | y :: ys, x =>
    if lt x y then (x :: y :: ys, true)
    else if lt y x then
      let r := setInsertP lt ys x
      (y :: r.1, r.2)
    else (y :: ys, false)

/-- `setInsertP` for a comparator that can abort (the beach comparator
calls `getIntersection`, whose finiteness asserts it inherits). -/
def setInsertPE {α : Type} (lt : α → α → Except String Bool) :
    List α → α → Except String (List α × Bool)
  | [], x => .ok ([x], true)
  | y :: ys, x => do
    let b1 ← lt x y
    if b1 then .ok (x :: y :: ys, true)
    else do
      let b2 ← lt y x
      if b2 then do
        let r ← setInsertPE lt ys x
        .ok (y :: r.1, r.2)
      else .ok (y :: ys, false)

/-- Index of the first element not less than `k`, as `std::set::lower_bound`
on the sorted list (returns the length when every element is less); an
aborting comparison propagates. -/
def lowerBoundIdxE {α : Type} (lt : α → α → Except String Bool) :
    List α → α → Except String Nat
  | [], _ => .ok 0
  | x :: xs, k => do
    let b ← lt x k
    if b then do
      let i ← lowerBoundIdxE lt xs k
      .ok (i + 1)
    else .ok 0

/-- Index of the first element satisfying `p`, if any; an aborting test
propagates. -/
def findIdxOE {α : Type} (p : α → Except String Bool) :
    List α → Except String (Option Nat)
  | [] => .ok none
  | x :: xs => do
    let b ← p x
    if b then .ok (some 0)
    else do
      let r ← findIdxOE p xs
      .ok (r.map (fun i => i + 1))

/-- In-place update of the element at an index, used to embed mutation of a
node reached through a `shared_ptr`. -/
def listModify {α : Type} : List α → Nat → (α → α) → List α
  | [], _, _ => []
  | x :: xs, 0, f => f x :: xs
  | x :: xs, n + 1, f => x :: listModify xs n f

/-- All adjacent beach entries are strictly increasing under the comparator:
the checking loop at the top of `Voronoi::Implementation::processEvent`
(which `throw`s on violation); a comparison that aborts propagates its
error from the pair where it happens. -/
def adjacentOkE (lt : Intersection → Intersection → Except String Bool) :
    List Intersection → Except String Bool
  | [] => .ok true
  | [_] => .ok true
  | x :: y :: rest => do
    let b ← lt x y
    if b then adjacentOkE lt (y :: rest) else .ok false

/-- A circle event, `CircleEvent` in the source: the two generating
breakpoints plus the circumcircle. -/
structure CircleEvent where
  left_int : Intersection
  right_int : Intersection
  circle : Circle
deriving DecidableEq, Repr

/-- The priority key of a circle event: the y of the lowest point of its
circle, `circle.center.y - circle.radius` in the source. -/
def evtKey (e : CircleEvent) : ℚ := e.circle.center.y - e.circle.radius

/-- `CircleEvent::operator<` from the source: events compare by key alone. -/
def cevLt (a b : CircleEvent) : Bool :=
  if evtKey a < evtKey b then true else false

/-- The exact four-pointer comparison used by `CircleQueue::erase` to
identify the event generated by two specific breakpoints. -/
def eventMatches (left_int right_int : Intersection) (e : CircleEvent) : Bool :=
  if left_int.pt_left = e.left_int.pt_left ∧ left_int.pt_right = e.left_int.pt_right ∧
     right_int.pt_left = e.right_int.pt_left ∧ right_int.pt_right = e.right_int.pt_right
  then true else false

/-- Erase the first matching event from a list (the loop body of
`CircleQueue::erase` erases one match and breaks). -/
def eraseFirstEventMatch (left_int right_int : Intersection) :
    List CircleEvent → List CircleEvent
  | [] => []
  | e :: es =>
    if eventMatches left_int right_int e then es
    else e :: eraseFirstEventMatch left_int right_int es

/-- `CircleQueue::insert` from `voronoi.cpp`, including the suspected bug
recorded in the spec design notes: both convergence probes evaluate
`left_int` (lines 270-273 of the source), so the right breakpoint is never
actually tested.  The queue is the sorted event list; `.error` stands for the
`assert` on a null inner site. -/
def circleQueueInsert (pts : Nat → Point) (sweep_y : ℚ) (q : List CircleEvent)
    (left_int right_int : Intersection) : Except String (List CircleEvent) :=
  if left_int.pt_left = none then .ok q
  else if right_int.pt_right = none then .ok q
  else if (left_int.pt_left = right_int.pt_left ∧ left_int.pt_right = right_int.pt_right) ∨
          (left_int.pt_left = right_int.pt_right ∧ left_int.pt_right = right_int.pt_left) then
    -- only two unique points: no event
    .ok q
  else
    match left_int.pt_left, left_int.pt_right, right_int.pt_left, right_int.pt_right with
    | some pa, some pb, some _, some pc =>
      let evt : CircleEvent :=
        { left_int := left_int, right_int := right_int
          circle := solveCircle (pts pa) (pts pb) (pts pc) }
      if evtKey evt > sweep_y then
        -- the event would happen behind the current sweep
        .ok q
      else do
        let left_int_pt ← getIntersectionI pts (evtKey evt) left_int
        let right_int_pt ← getIntersectionI pts (evtKey evt) left_int
        let d1 := distance2d left_int_pt evt.circle.center
        let d2 := distance2d right_int_pt evt.circle.center
        if d1 > evt.circle.radius ∨ d2 > evt.circle.radius then
          -- diverging intersections: no event
          .ok q
        else
          .ok (setInsertP cevLt q evt).1
    | _, _, _, _ => .error "assert failed: null site in circle event insert"

/-- The insertion predicate as the specification words it (spec section 4.3,
convergence test): identical to `circleQueueInsert` except that the second
probe evaluates `right_int` at the event key, so both breakpoints are
required to lie within the circumcircle radius of the centre. -/
def circleQueueInsertSpec (pts : Nat → Point) (sweep_y : ℚ) (q : List CircleEvent)
    (left_int right_int : Intersection) : Except String (List CircleEvent) :=
  if left_int.pt_left = none then .ok q
  else if right_int.pt_right = none then .ok q
  else if (left_int.pt_left = right_int.pt_left ∧ left_int.pt_right = right_int.pt_right) ∨
          (left_int.pt_left = right_int.pt_right ∧ left_int.pt_right = right_int.pt_left) then
    .ok q
  else
    match left_int.pt_left, left_int.pt_right, right_int.pt_left, right_int.pt_right with
    | some pa, some pb, some _, some pc =>
      let evt : CircleEvent :=
        { left_int := left_int, right_int := right_int
          circle := solveCircle (pts pa) (pts pb) (pts pc) }
      if evtKey evt > sweep_y then .ok q
      else do
        let left_int_pt ← getIntersectionI pts (evtKey evt) left_int
        let right_int_pt ← getIntersectionI pts (evtKey evt) right_int
        let d1 := distance2d left_int_pt evt.circle.center
        let d2 := distance2d right_int_pt evt.circle.center
        if d1 > evt.circle.radius ∨ d2 > evt.circle.radius then .ok q
        else .ok (setInsertP cevLt q evt).1
    | _, _, _, _ => .error "assert failed: null site in circle event insert"

/-- `CircleQueue::erase` from `voronoi.cpp`: recompute the key of the event
identified by the two breakpoints, then scan the queue from the first entry
with key not below it (its `lower_bound`) and erase the first entry whose
four site references match exactly.  The `.error` stands for the `assert` on
a null middle site; a null outer site means there is no event to erase. -/
def circleQueueErase (pts : Nat → Point) (q : List CircleEvent)
    (left_int right_int : Intersection) : Except String (List CircleEvent) :=
  match left_int.pt_right with
  | none => .error "assert failed: null middle site in circle event erase"
  | some pb =>
    match left_int.pt_left, right_int.pt_right with
    | some pa, some pc =>
      let c := solveCircle (pts pa) (pts pb) (pts pc)
      let end_y := c.center.y - c.radius
      let isBefore : CircleEvent → Bool := fun e => if evtKey e < end_y then true else false
      .ok (q.takeWhile isBefore ++
        eraseFirstEventMatch left_int right_int (q.dropWhile isBefore))
    | _, _ => .ok q

/-- A Voronoi vertex, `Voronoi::Node` in the source.  The pointer sets
`edges` and `neighbors` become sorted lists of arena ids. -/
structure Node where
  x : ℚ
  y : ℚ
  parents : List Nat
  edges : List Nat
  neighbors : List Nat
deriving DecidableEq, Repr

/-- A Voronoi edge, `Voronoi::Edge` in the source.  The two endpoint
pointers become node ids; the neighbour set is computed in a post-pass of
the `Voronoi` constructor and is not needed by any claim. -/
structure EdgeRec where
  parents : List Nat
  nodeA : Nat
  nodeB : Nat
deriving DecidableEq, Repr

/-- The key of the `m_nodes` map: an ordered tuple of three optional site
pointers (`std::tuple<const Point*, const Point*, const Point*>`). -/
abbrev NodeKey := Option Nat × Option Nat × Option Nat

/-- The whole mutable state of `Voronoi::Implementation`: the sweep cell,
the beach line, the event queue, the vertex-interning map (`m_nodes`, values
are optional to mirror the nullable `Node::Ptr`), the arena of created nodes
(`shared_ptr` identity becomes the arena id) and the edge list. -/
structure VState where
  sweep_y : ℚ
  beach : List Intersection
  events : List CircleEvent
  nodes : List (NodeKey × Option Nat)
  store : List Node
  edges : List EdgeRec
deriving DecidableEq, Repr

/-- The freshly constructed implementation state.  The C++ member `sweep_y`
is uninitialised until the first site event writes it; `0` stands for that
never-read initial value. -/
def initState : VState :=
  { sweep_y := 0, beach := [], events := [], nodes := [], store := [], edges := [] }

/-- Lookup in the interning map (`std::unordered_map::find` by key). -/
def assocLookup (l : List (NodeKey × Option Nat)) (k : NodeKey) : Option (Option Nat) :=
  match l with
  | [] => none
  | kv :: rest => if kv.1 = k then some kv.2 else assocLookup rest k

/-- Insertion into a `std::set<size_t>` represented as a sorted
duplicate-free list. -/
def insertSortedNat : List Nat → Nat → List Nat
  | [], v => [v]
  | x :: xs, v =>
    if v < x then v :: x :: xs
    else if x < v then x :: insertSortedNat xs v
    else x :: xs

/-- `std::set_intersection` of two sorted parent sets. -/
def interParents (a b : List Nat) : List Nat :=
  a.filter (fun v => if v ∈ b then true else false)

/-- Byte size of the `Point` type: two `float64` coordinates (spec section
6).  The parent-index computation in `getNode` divides by this constant. -/
def sizeofPoint : Nat := 16

/-- Placeholder node for out-of-range arena reads (never reached: edge and
node ids are created in-range). -/
def defaultNode : Node := { x := 0, y := 0, parents := [], edges := [], neighbors := [] }

/-- The triple overload of `Voronoi::Implementation::getNode`: order the
three pointers, look the tuple up in `m_nodes`, and on a miss create a node
positioned at the circumcentre whose parent set is
`(pointer - arena base) / sizeof(Point)` for each pointer.  Pointer
subtraction yields the arena index, so the embedded computation is
`index / sizeofPoint`.  The `.error` stands for the assert that a previously
interned node is non-null. -/
def getNode3 (pts : Nat → Point) (s : VState) (a b c : Nat) :
    Except String (VState × Nat) :=
  let t := orderPoints a b c
  let k : NodeKey := (some t.1, some t.2.1, some t.2.2)
  match assocLookup s.nodes k with
  | some (some id) => .ok (s, id)
  | some none => .error "assert failed: interned node is null"
  | none =>
    let circle := solveCircle (pts t.1) (pts t.2.1) (pts t.2.2)
    let id := s.store.length
    let node : Node :=
      { x := circle.center.x, y := circle.center.y
        parents := insertSortedNat (insertSortedNat (insertSortedNat []
          (t.1 / sizeofPoint)) (t.2.1 / sizeofPoint)) (t.2.2 / sizeofPoint)
        edges := [], neighbors := [] }
    .ok ({ s with nodes := (k, some id) :: s.nodes, store := s.store ++ [node] }, id)

/-- The pair overload of `Voronoi::Implementation::getNode`: order the two
pointers, key is the pair with a null third slot, position is the midpoint,
parent set is again `(pointer - arena base) / sizeof(Point)` per pointer. -/
def getNode2 (pts : Nat → Point) (s : VState) (a b : Nat) :
    Except String (VState × Nat) :=
  let t := orderPair a b
  let k : NodeKey := (some t.1, some t.2, none)
  match assocLookup s.nodes k with
  | some (some id) => .ok (s, id)
  | some none => .error "assert failed: interned node is null"
  | none =>
    let id := s.store.length
    let node : Node :=
      { x := ((pts t.1).x + (pts t.2).x) * (1/2)
        y := ((pts t.1).y + (pts t.2).y) * (1/2)
        parents := insertSortedNat (insertSortedNat [] (t.1 / sizeofPoint))
          (t.2 / sizeofPoint)
        edges := [], neighbors := [] }
    .ok ({ s with nodes := (k, some id) :: s.nodes, store := s.store ++ [node] }, id)

/-- `Voronoi::Implementation::addEdge`: create an edge whose parent set is
the intersection of the endpoint parent sets and append it to `m_edges`;
the returned id is the new edge's position. -/
def addEdge (s : VState) (na nb : Nat) : VState × Nat :=
  let pa := (s.store.getD na defaultNode).parents
  let pb := (s.store.getD nb defaultNode).parents
  let common := interParents pa pb
  let id := s.edges.length
  ({ s with edges := s.edges ++ [{ parents := common, nodeA := na, nodeB := nb }] }, id)

/-- `Voronoi::Implementation::addTriplet`: connect `center` to each of
`nodeA`, `nodeB`, `nodeC` with an edge, recording incidences and neighbour
relations on both endpoints. -/
def addTriplet (s : VState) (center na nb nc : Nat) : VState :=
  let r1 := addEdge s na center
  let r2 := addEdge r1.1 nb center
  let r3 := addEdge r2.1 nc center
  let s3 := r3.1
  let addE := fun (st : List Node) (id e : Nat) =>
    listModify st id (fun n => { n with edges := insertSortedNat n.edges e })
  let addN := fun (st : List Node) (id v : Nat) =>
    listModify st id (fun n => { n with neighbors := insertSortedNat n.neighbors v })
  let st1 := addE s3.store na r1.2
  let st2 := addE st1 nb r2.2
  let st3 := addE st2 nc r3.2
  let st4 := addE (addE (addE st3 center r1.2) center r2.2) center r3.2
  let st5 := addN st4 na center
  let st6 := addN st5 nb center
  let st7 := addN st6 nc center
  let st8 := addN (addN (addN st7 center na) center nb) center nc
  { s3 with store := st8 }

/-- `points_match` from `voronoi.cpp`: two pointer triples contain the same
three pointers in any order (all six permutations spelled out). -/
def points_match (lhs rhs : NodeKey) : Bool :=
  if (lhs.1 = rhs.1 ∧ lhs.2.1 = rhs.2.1 ∧ lhs.2.2 = rhs.2.2) ∨
     (lhs.1 = rhs.1 ∧ lhs.2.1 = rhs.2.2 ∧ lhs.2.2 = rhs.2.1) ∨
     (lhs.1 = rhs.2.1 ∧ lhs.2.1 = rhs.2.2 ∧ lhs.2.2 = rhs.1) ∨
     (lhs.1 = rhs.2.1 ∧ lhs.2.1 = rhs.1 ∧ lhs.2.2 = rhs.2.2) ∨
     (lhs.1 = rhs.2.2 ∧ lhs.2.1 = rhs.1 ∧ lhs.2.2 = rhs.2.1) ∨
     (lhs.1 = rhs.2.2 ∧ lhs.2.1 = rhs.2.1 ∧ lhs.2.2 = rhs.1)
  then true else false

/-- The topology-emission tail of `Voronoi::Implementation::processEvent`
(source lines 750-792): intern the interior vertex and the three pair
vertices, compute the three perp signs of the circumcentre against the
triangle sides, and connect either the interior vertex (centre inside the
triangle) or the odd-sign pair vertex (centre outside) to the other three
vertices via `addTriplet`. -/
def circleEventEmission (pts : Nat → Point) (s : VState) (a b c : Nat)
    (center : Point) : Except String VState := do
  let r0 ← getNode3 pts s a b c
  let r1 ← getNode2 pts r0.1 a b
  let r2 ← getNode2 pts r1.1 b c
  let r3 ← getNode2 pts r2.1 a c
  let s3 := r3.1
  let nodeCenter := r0.2
  let nodeAB := r1.2
  let nodeBC := r2.2
  let nodeCA := r3.2
  let distAB := perp center (pts a) (pts b)
  let distBC := perp center (pts b) (pts c)
  let distCA := perp center (pts c) (pts a)
  if (distAB ≤ 0 ∧ distBC ≤ 0 ∧ distCA ≤ 0) ∨
     (distAB ≥ 0 ∧ distBC ≥ 0 ∧ distCA ≥ 0) then
    -- centre inside the triangle
    .ok (addTriplet s3 nodeCenter nodeAB nodeBC nodeCA)
  else if (distBC ≤ 0 ∧ distCA ≥ 0 ∧ distAB ≥ 0) ∨
          (distBC ≥ 0 ∧ distCA ≤ 0 ∧ distAB ≤ 0) then
    -- distBC is the odd man out
    .ok (addTriplet s3 nodeBC nodeCenter nodeCA nodeAB)
  else if (distCA ≤ 0 ∧ distAB ≥ 0 ∧ distBC ≥ 0) ∨
          (distCA ≥ 0 ∧ distAB ≤ 0 ∧ distBC ≤ 0) then
    -- distCA is the odd man out
    .ok (addTriplet s3 nodeCA nodeCenter nodeAB nodeBC)
  else
    .ok (addTriplet s3 nodeAB nodeCenter nodeBC nodeCA)

/-- `Voronoi::Implementation::processEvent` from `voronoi.cpp`.  In order:
the adjacency asserts on the event, the beach-order checking loop (`throw`),
the `find` of the left breakpoint with its begin/end asserts, neighbour
reads with their asserts, queue invalidations, erasure of the two
breakpoints, the sweep update, insertion of the merged breakpoint, creation
of the neighbour events guarded by `points_match`, the node-map null assert
loop, and the topology emission. -/
def processEvent (pts : Nat → Point) (s : VState) (event : CircleEvent) :
    Except String VState :=
  if event.left_int.pt_right ≠ event.right_int.pt_left then
    .error "assert failed: event intersections do not share the middle site"
  else do
    let ord ← adjacentOkE (beachLess pts s.sweep_y) s.beach
    if ord = false then .error "beach order violated"
    else do
    let fi ← findIdxOE (fun e => beachEquiv pts s.sweep_y e event.left_int) s.beach
    match fi with
    | none => .error "assert failed: event left intersection not on beach"
    | some idx =>
      if idx = 0 then .error "assert failed: event at beach begin" else
      match s.beach[idx - 1]?, s.beach[idx]?, s.beach[idx + 1]?, s.beach[idx + 2]? with
      | some ln, some lv, some rv, some rn =>
        if lv.pt_right ≠ event.left_int.pt_right then
          .error "assert failed: left intersection mismatch"
        else if lv.pt_left ≠ event.left_int.pt_left then
          .error "assert failed: left intersection mismatch"
        else if rv.pt_right ≠ event.right_int.pt_right then
          .error "assert failed: right intersection mismatch"
        else if rv.pt_left ≠ event.right_int.pt_left then
          .error "assert failed: right intersection mismatch"
        else if ln.pt_right ≠ event.left_int.pt_left then
          .error "assert failed: left neighbor mismatch"
        else if rn.pt_left ≠ event.right_int.pt_right then
          .error "assert failed: right neighbor mismatch"
        else do
          let q1 ← circleQueueErase pts s.events ln event.left_int
          let q2 ← circleQueueErase pts q1 event.right_int rn
          let beach1 := (s.beach.eraseIdx (idx + 1)).eraseIdx idx
          let sweep2 := event.circle.center.y - event.circle.radius
          let newI : Intersection := ⟨event.left_int.pt_left, event.right_int.pt_right⟩
          let r ← setInsertPE (beachLess pts sweep2) beach1 newI
          if r.2 = false then .error "assert failed: beach emplace failed in processEvent"
          else do
            let evtPts : NodeKey :=
              (event.left_int.pt_left, event.left_int.pt_right, event.right_int.pt_right)
            let q3 ←
              if ln.pt_left ≠ none ∧
                 points_match (ln.pt_left, newI.pt_left, newI.pt_right) evtPts = false then
                circleQueueInsert pts sweep2 q2 ln newI
              else .ok q2
            let q4 ←
              if rn.pt_right ≠ none ∧
                 points_match (newI.pt_left, newI.pt_right, rn.pt_right) evtPts = false then
                circleQueueInsert pts sweep2 q3 newI rn
              else .ok q3
            if s.nodes.any (fun kv => if kv.2 = none then true else false) then
              .error "assert failed: null node in map"
            else
              let s1 := { s with beach := r.1, events := q4, sweep_y := sweep2 }
              match event.left_int.pt_left, event.left_int.pt_right,
                  event.right_int.pt_right with
              | some a, some b, some c =>
                circleEventEmission pts s1 a b c event.circle.center
              | _, _, _ => .error "null site dereferenced in processEvent"
      | _, _, _, _ => .error "beach iterator out of range in processEvent"

/-- `Voronoi::Implementation::processPoint` from `voronoi.cpp`: write the
sweep cell, then either seed an empty beach with the two sentinel
breakpoints, or locate the arc above the new site with the degenerate probe,
insert the two new breakpoints, generate the neighbour events and invalidate
the event of the enclosing breakpoint pair. -/
def processPoint (pts : Nat → Point) (s0 : VState) (d : Nat) :
    Except String VState :=
  let sweep := (pts d).y
  let s := { s0 with sweep_y := sweep }
  if s.beach.isEmpty then do
    let r1 ← setInsertPE (beachLess pts sweep) s.beach ⟨none, some d⟩
    let r2 ← setInsertPE (beachLess pts sweep) r1.1 ⟨some d, none⟩
    .ok { s with beach := r2.1 }
  else do
    let dummy : Intersection := ⟨some d, some d⟩
    let idx ← lowerBoundIdxE (beachLess pts sweep) s.beach dummy
    if idx = 0 then .error "iterator decremented past begin in processPoint" else
    match s.beach[idx - 1]?, s.beach[idx]? with
    | some it1v, some it2v => do
      let ptB := it1v.pt_right
      let newL : Intersection := ⟨ptB, some d⟩
      let r1 ← setInsertPE (beachLess pts sweep) s.beach newL
      if r1.2 = false then .error "assert failed: beach emplace failed in processPoint"
      else do
        let q1 ←
          if it1v.pt_left ≠ none then circleQueueInsert pts sweep s.events it1v newL
          else .ok s.events
        let newR : Intersection := ⟨some d, ptB⟩
        let r2 ← setInsertPE (beachLess pts sweep) r1.1 newR
        if r2.2 = false then .error "assert failed: beach emplace failed in processPoint"
        else do
          let q2 ←
            if it2v.pt_right ≠ none then circleQueueInsert pts sweep q1 newR it2v
            else .ok q1
          let q3 ←
            if it1v.pt_left ≠ none ∧ it2v.pt_right ≠ none then
              circleQueueErase pts q2 it1v it2v
            else .ok q2
          .ok { s with beach := r2.1, events := q3 }
    | _, _ => .error "beach iterator out of range in processPoint"

/-- The event branch of the main loop: pop the greatest-key event (`back` of
the ascending set) and process it.  The site cursor is unchanged. -/
def stepEvent (pts : Nat → Point) (ii : Nat) (s : VState) :
    Except String (Nat × VState) :=
  match s.events.getLast? with
  | none => .error "pop on empty event queue"
  | some evt => do
    let s1 ← processEvent pts { s with events := s.events.dropLast } evt
    .ok (ii, s1)

/-- The site branch of the main loop: process the next site and advance the
cursor. -/
def stepSite (pts : Nat → Point) (ordered : List Nat) (ii : Nat) (s : VState) :
    Except String (Nat × VState) :=
  match ordered[ii]? with
  | none => .error "site index out of range"
  | some idx => do
    let s1 ← processPoint pts s idx
    .ok (ii + 1, s1)

/-- One iteration of the main loop of `Voronoi::Implementation::compute`
(source lines 903-941): if the queue is empty take the next site; if the
sites are exhausted take the next event; otherwise the site is taken exactly
when its y is strictly greater than the top event key. -/
def computeStep (pts : Nat → Point) (ordered : List Nat) (ii : Nat) (s : VState) :
    Except String (Nat × VState) :=
  if s.events.isEmpty then stepSite pts ordered ii s
  else if ii = ordered.length then stepEvent pts ii s
  else
    match ordered[ii]?, s.events.getLast? with
    | some idx, some evt =>
      if (pts idx).y > evtKey evt then stepSite pts ordered ii s
      else stepEvent pts ii s
    | _, _ => .error "main loop cursor out of range"

/-- The main loop, driven by explicit fuel (the source loop terminates on
the algorithmic argument that events run out; the fuel only bounds the
embedding and is irrelevant to every claim below). -/
def computeLoop (pts : Nat → Point) (ordered : List Nat) :
    Nat → Nat → VState → Except String VState
  | 0, _, _ => .error "fuel exhausted"
  | fuel + 1, ii, s =>
    if s.events.isEmpty ∧ ordered.length ≤ ii then .ok s
    else do
      let r ← computeStep pts ordered ii s
      computeLoop pts ordered fuel r.1 r.2

/-- Insertion step for the descending-y ordering of site indices. -/
def insertDescY (pts : Nat → Point) (i : Nat) : List Nat → List Nat
  | [] => [i]
  | j :: js => if (pts i).y > (pts j).y then i :: j :: js else j :: insertDescY pts i js

/-- The `std::sort` of site indices by strictly decreasing y (source lines
885-888).  `std::sort` leaves the order of equal keys unspecified; the
embedding uses a stable insertion sort with the same comparator. -/
def sortDescY (pts : Nat → Point) (l : List Nat) : List Nat :=
  l.foldr (insertDescY pts) []

/-- `Voronoi::Implementation::compute` from `voronoi.cpp`: build the index
arena, sort the site indices by descending y, read
`points[ordered.back()].y` (an out-of-bounds access when the input is
empty, embedded as an error), then run the main loop.  The bounding-box
scan is omitted: it feeds diagnostics only. -/
def compute (points : List Point) (fuel : Nat) : Except String VState :=
  let pts : Nat → Point := fun i => points.getD i ⟨0, 0⟩
  let ordered := sortDescY pts (List.range points.length)
  match ordered.getLast? with
  | none => .error "vector back called on empty vector"
  | some _ => computeLoop pts ordered fuel 0 initState

/-! Concrete site arenas used by the claim theorems.  `ptsA` places six
sites on two congruent circles of radius 5 centred at the origin and at
(10, 0); `ptsB` and `ptsC` are triples on the radius-5 circle whose
circumcentre lies outside the triangle; `ptsE` adds a site whose y
coincides with a circle-event key. -/

/-- Six sites: indices 0-2 on the circle of radius 5 around the origin,
indices 3-5 the same triple translated by (10, 0). -/
def ptsA : Nat → Point := fun i =>
  match i with
  | 0 => ⟨-3, -4⟩
  | 1 => ⟨3, -4⟩
  | 2 => ⟨3, 4⟩
  | 3 => ⟨7, -4⟩
  | 4 => ⟨13, -4⟩
  | 5 => ⟨13, 4⟩
  | _ => ⟨0, 0⟩

/-- Three sites on the unit-5 circle clustered in the upper half plane, so
the circumcentre (the origin) lies outside the triangle; the odd perp sign
is the AB side. -/
def ptsB : Nat → Point := fun i =>
  match i with
  | 0 => ⟨-3, 4⟩
  | 1 => ⟨3, 4⟩
  | 2 => ⟨0, 5⟩
  | _ => ⟨0, 0⟩

/-- The same geometric configuration as `ptsB` with the labels rotated so
that the odd perp sign is the BC side. -/
def ptsC : Nat → Point := fun i =>
  match i with
  | 0 => ⟨0, 5⟩
  | 1 => ⟨-3, 4⟩
  | 2 => ⟨3, 4⟩
  | _ => ⟨0, 0⟩

/-- An arena whose coordinates are irrelevant (used where only pointer
identity matters). -/
def ptsD : Nat → Point := fun i => ⟨(i : ℚ), 0⟩

/-- Site 0 is a pending site whose y equals the key of the circle event of
sites 1, 2, 3 (the circle of radius 5 around the origin, key -5). -/
def ptsE : Nat → Point := fun i =>
  match i with
  | 0 => ⟨100, -5⟩
  | 1 => ⟨-3, -4⟩
  | 2 => ⟨3, -4⟩
  | 3 => ⟨3, 4⟩
  | _ => ⟨0, 0⟩

/-- Three non-colinear sites for the parent-index theorems. -/
def ptsF : Nat → Point := fun i =>
  match i with
  | 0 => ⟨0, 0⟩
  | 1 => ⟨2, 0⟩
  | 2 => ⟨1, 1⟩
  | _ => ⟨0, 0⟩

/-- The circle event of sites 0, 1, 2 of `ptsA` (key -5). -/
def evA : CircleEvent :=
  { left_int := ⟨some 0, some 1⟩, right_int := ⟨some 1, some 2⟩
    circle := solveCircle (ptsA 0) (ptsA 1) (ptsA 2) }

/-- The circle event of sites 3, 4, 5 of `ptsA`: a different site triple
with the same key -5. -/
def evB : CircleEvent :=
  { left_int := ⟨some 3, some 4⟩, right_int := ⟨some 4, some 5⟩
    circle := solveCircle (ptsA 3) (ptsA 4) (ptsA 5) }

/-- A beach holding only the two sentinel breakpoints of site 0: it does
not contain the breakpoints of `staleEvt`. -/
def staleBeach : List Intersection := [⟨none, some 0⟩, ⟨some 0, none⟩]

/-- A circle event over sites 1, 2, 3, none of whose breakpoints are on
`staleBeach`. -/
def staleEvt : CircleEvent :=
  { left_int := ⟨some 1, some 2⟩, right_int := ⟨some 2, some 3⟩
    circle := { center := ⟨0, 0⟩, radius := 1 } }

/-- The stale-event state: sentinel-only beach, empty queue, sweep at 0. -/
def staleState : VState := { initState with beach := staleBeach }

/-- The circle event of sites 1, 2, 3 of `ptsE` (key -5). -/
def evE : CircleEvent :=
  { left_int := ⟨some 1, some 2⟩, right_int := ⟨some 2, some 3⟩
    circle := solveCircle (ptsE 1) (ptsE 2) (ptsE 3) }

/-- A mid-run state for the tie-breaking theorems: the beach carries the
arcs of sites 1, 2, 3 and the queue holds `evE`; the pending site 0 of
`ptsE` has y equal to the event key.  The sweep cell sits at -5, strictly
below every site, so every breakpoint the order-checking loop evaluates is
finite. -/
def tieState : VState :=
  { initState with
    sweep_y := -5
    beach := [⟨none, some 1⟩, ⟨some 1, some 2⟩, ⟨some 2, some 3⟩, ⟨some 3, none⟩]
    events := [evE] }

/-- A second sentinel-only beach (site 4) for the stale-event witness. -/
def staleBeach2 : List Intersection := [⟨none, some 4⟩, ⟨some 4, none⟩]

/-- A second stale circle event, over sites 5, 6, 7. -/
def staleEvt2 : CircleEvent :=
  { left_int := ⟨some 5, some 6⟩, right_int := ⟨some 6, some 7⟩
    circle := { center := ⟨0, 0⟩, radius := 1 } }

/-- The second stale-event state. -/
def staleState2 : VState := { initState with beach := staleBeach2 }

/-- The edge endpoints emitted by the outside-circumcentre branches of
`processEvent`, in terms of the node ids produced by a fresh emission
(0 = the interior vertex of the triple, 1 = the pair vertex of A and B,
2 = of B and C, 3 = of C and A), selected by the same sign conditions the
source uses: the odd-sign pair vertex is the second endpoint of every
edge. -/
def farEdges (dAB dBC dCA : ℚ) : List (Nat × Nat) :=
  if (dBC ≤ 0 ∧ dCA ≥ 0 ∧ dAB ≥ 0) ∨ (dBC ≥ 0 ∧ dCA ≤ 0 ∧ dAB ≤ 0) then
    [(0, 2), (3, 2), (1, 2)]
  else if (dCA ≤ 0 ∧ dAB ≥ 0 ∧ dBC ≥ 0) ∨ (dCA ≥ 0 ∧ dAB ≤ 0 ∧ dBC ≤ 0) then
    [(0, 3), (1, 3), (2, 3)]
  else [(0, 1), (2, 1), (3, 1)]

/-- The node map holds no null `Node::Ptr`: every interned key maps to an
actual node. -/
def NodesWF (s : VState) : Prop := ∀ kv ∈ s.nodes, kv.2 ≠ none

/-- `NodesWF` of the state produced by a `getNode` call (trivially true on
the assert-failure path, where no state is returned). -/
def nodesWFE : Except String (VState × Nat) → Prop
  | .ok r => NodesWF r.1
  | .error _ => True

/-! Square-root facts for the perfect squares reached by the concrete
evaluations. -/

lemma natSqrt0 : Nat.sqrt 0 = 0 := by
  rw [show (0 : ℕ) = 0 * 0 by norm_num]
  exact Nat.sqrt_eq 0

lemma natSqrt1 : Nat.sqrt 1 = 1 := by
  rw [show (1 : ℕ) = 1 * 1 by norm_num]
  exact Nat.sqrt_eq 1

lemma natSqrt9 : Nat.sqrt 9 = 3 := by
  rw [show (9 : ℕ) = 3 * 3 by norm_num]
  exact Nat.sqrt_eq 3

lemma natSqrt25 : Nat.sqrt 25 = 5 := by
  rw [show (25 : ℕ) = 5 * 5 by norm_num]
  exact Nat.sqrt_eq 5

lemma natSqrt36 : Nat.sqrt 36 = 6 := by
  rw [show (36 : ℕ) = 6 * 6 by norm_num]
  exact Nat.sqrt_eq 6

lemma natSqrt64 : Nat.sqrt 64 = 8 := by
  rw [show (64 : ℕ) = 8 * 8 by norm_num]
  exact Nat.sqrt_eq 8

lemma ratSqrtOf0 : ratSqrt 0 = 0 := by
  unfold ratSqrt
  rw [show (0 : ℚ).num.toNat = 0 from rfl, show (0 : ℚ).den = 1 from rfl, natSqrt0, natSqrt1]
  norm_num

lemma ratSqrtOf1 : ratSqrt 1 = 1 := by
  unfold ratSqrt
  rw [show (1 : ℚ).num.toNat = 1 from rfl, show (1 : ℚ).den = 1 from rfl, natSqrt1]
  norm_num

lemma ratSqrtOf9 : ratSqrt 9 = 3 := by
  unfold ratSqrt
  rw [show (9 : ℚ).num.toNat = 9 from rfl, show (9 : ℚ).den = 1 from rfl, natSqrt9, natSqrt1]
  norm_num

lemma ratSqrtOf25 : ratSqrt 25 = 5 := by
  unfold ratSqrt
  rw [show (25 : ℚ).num.toNat = 25 from rfl, show (25 : ℚ).den = 1 from rfl, natSqrt25, natSqrt1]
  norm_num

lemma ratSqrtOf36 : ratSqrt 36 = 6 := by
  unfold ratSqrt
  rw [show (36 : ℚ).num.toNat = 36 from rfl, show (36 : ℚ).den = 1 from rfl, natSqrt36, natSqrt1]
  norm_num

lemma ratSqrtOf64 : ratSqrt 64 = 8 := by
  unfold ratSqrt
  rw [show (64 : ℚ).num.toNat = 64 from rfl, show (64 : ℚ).den = 1 from rfl, natSqrt64, natSqrt1]
  norm_num

/-! Reduction lemmas for the `Except` monad, used when evaluating the
embedded programs on concrete inputs. -/

lemma exceptBindOk {α β : Type} (x : α) (f : α → Except String β) :
    (Except.ok x : Except String α) >>= f = f x := rfl

lemma exceptBindErr {α β : Type} (e : String) (f : α → Except String β) :
    (Except.error e : Except String α) >>= f = .error e := rfl

lemma exceptMapOk {α β : Type} (g : α → β) (x : α) :
    Except.map g (Except.ok x : Except String α) = .ok (g x) := rfl

lemma exceptMapErr {α β : Type} (g : α → β) (e : String) :
    Except.map g (Except.error e : Except String α) = .error e := rfl

/-- C8: when the two sites are at (numerically) equal height and neither is
at the sweep, the intersection computation succeeds and the breakpoint
x-coordinate is the midpoint of the site x-coordinates. -/
theorem getIntersection_equal_height (sweep : ℚ) (p r : Point) (sign : ℚ)
    (h1 : ¬ |p.y - sweep| < eps) (h2 : ¬ |r.y - sweep| < eps)
    (h3 : |p.y - r.y| < eps) :
    (getIntersectionPts sweep p r sign).map Point.x = .ok ((p.x + r.x) / 2) := by
  have h4 : ¬ |p.y - r.y| > eps := not_lt.mpr (le_of_lt h3)
  have h5 : ¬ p.y - sweep = 0 := by
    intro h0
    exact h1 (by rw [h0]; norm_num [eps])
  simp only [getIntersectionPts, if_neg h1, if_neg h2, if_neg h4, if_neg h5, exceptMapOk,
    Except.ok.injEq]
  ring

/-- Witness for C8 at sites (0, 1) and (2, 1) with the sweep at 0. -/
theorem getIntersection_equal_height_witness :
    (¬ |((⟨0, 1⟩ : Point)).y - (0 : ℚ)| < eps) ∧
    (¬ |((⟨2, 1⟩ : Point)).y - (0 : ℚ)| < eps) ∧
    |((⟨0, 1⟩ : Point)).y - ((⟨2, 1⟩ : Point)).y| < eps ∧
    (getIntersectionPts 0 ⟨0, 1⟩ ⟨2, 1⟩ 1).map Point.x =
      .ok ((((⟨0, 1⟩ : Point)).x + ((⟨2, 1⟩ : Point)).x) / 2) := by
  have h1 : ¬ |((⟨0, 1⟩ : Point)).y - (0 : ℚ)| < eps := by norm_num [eps]
  have h2 : ¬ |((⟨2, 1⟩ : Point)).y - (0 : ℚ)| < eps := by norm_num [eps]
  have h3 : |((⟨0, 1⟩ : Point)).y - ((⟨2, 1⟩ : Point)).y| < eps := by norm_num [eps]
  exact ⟨h1, h2, h3, getIntersection_equal_height 0 ⟨0, 1⟩ ⟨2, 1⟩ 1 h1 h2 h3⟩

/-- C1: `CircleQueue::insert` evaluates `left_int` for both convergence
probes, so the right breakpoint is never tested.  At the adjacent
breakpoints (0,1) and (1,2) of `ptsA` (sites on the circle of radius 5
centred at the origin), every earlier filter passes, the left breakpoint at
the key -5 is the circumcentre itself (distance 0), but the right breakpoint
evaluates to (6, 0), at distance 6 > radius 5.  The code inserts the event;
the predicate following the spec words (`circleQueueInsertSpec`, both
breakpoints checked) rejects it. -/
theorem circleInsert_evaluates_left_twice :
    circleQueueInsert ptsA (-5) [] ⟨some 0, some 1⟩ ⟨some 1, some 2⟩ = .ok [evA] ∧
    circleQueueInsertSpec ptsA (-5) [] ⟨some 0, some 1⟩ ⟨some 1, some 2⟩ = .ok [] ∧
    (getIntersectionI ptsA (evtKey evA) ⟨some 1, some 2⟩).map
      (fun q => distance2d q evA.circle.center) = .ok 6 ∧
    evA.circle.radius = 5 := by
  refine ⟨?_, ?_, ?_, ?_⟩ <;>
    norm_num [circleQueueInsert, circleQueueInsertSpec, evA, ptsA, solveCircle, sqr, eps,
      distance2d, evtKey, getIntersectionI, getIntersectionPts, getSignI,
      setInsertP, cevLt, ratSqrtOf0, ratSqrtOf1, ratSqrtOf9, ratSqrtOf25, ratSqrtOf36,
      ratSqrtOf64, Option.some_ne_none, Point.mk.injEq, Circle.mk.injEq,
      CircleEvent.mk.injEq, Intersection.mk.injEq, exceptBindOk, exceptBindErr,
      exceptMapOk, exceptMapErr]

/-- C2: the parent sets computed by both `getNode` overloads divide the
arena index by `sizeof(Point)` once more than pointer subtraction already
does.  For sites at positions 0, 1 (and 0, 1, 2) of the input sequence the
resulting parent set is {0}, not {0, 1} (resp. {0, 1, 2}). -/
theorem getNode_parent_indices_collapsed :
    ((getNode2 ptsF initState 0 1).map
      (fun r => (r.1.store.getD r.2 defaultNode).parents)) = .ok [0] ∧
    ((getNode3 ptsF initState 0 1 2).map
      (fun r => (r.1.store.getD r.2 defaultNode).parents)) = .ok [0] := by
  constructor <;>
    norm_num [getNode2, getNode3, ptsF, initState, assocLookup, orderPair, orderPoints,
      insertSortedNat, sizeofPoint, defaultNode, Except.map, List.getD, solveCircle, sqr,
      Option.some_ne_none]

/-- C6: on the empty input sequence, `compute` evaluates
`points[ordered.back()]` with `ordered` empty, an out-of-bounds access on an
empty vector (embedded as an error), before the main loop even starts (the
fuel bound is irrelevant: both 0 and 7 give the same error); it does not
return an empty diagram. -/
theorem compute_empty_input_out_of_bounds :
    compute [] 0 = .error "vector back called on empty vector" ∧
    compute [] 7 = .error "vector back called on empty vector" := by
  constructor <;> norm_num [compute, sortDescY, insertDescY, List.range_zero]

/-- C9: two distinct circle events over different site triples (`evA` over
sites 0, 1, 2 and `evB` over sites 3, 4, 5 of `ptsA`) have the same key -5;
the ordering relation of the event set compares keys only, so it deems them
equivalent in both directions, and inserting the second event into a queue
that already holds the first leaves the queue unchanged. -/
theorem circle_queue_collapses_equal_keys :
    evA ≠ evB ∧ evtKey evA = evtKey evB ∧
    cevLt evA evB = false ∧ cevLt evB evA = false ∧
    circleQueueInsert ptsA (-5) [] ⟨some 0, some 1⟩ ⟨some 1, some 2⟩ = .ok [evA] ∧
    circleQueueInsert ptsA (-5) [evA] ⟨some 3, some 4⟩ ⟨some 4, some 5⟩ = .ok [evA] := by
  refine ⟨?_, ?_, ?_, ?_, ?_, ?_⟩ <;>
    norm_num [circleQueueInsert, evA, evB, ptsA, solveCircle, sqr, eps,
      distance2d, evtKey, getIntersectionI, getIntersectionPts, getSignI,
      setInsertP, cevLt, ratSqrtOf0, ratSqrtOf1, ratSqrtOf9, ratSqrtOf25, ratSqrtOf36,
      ratSqrtOf64, Option.some_ne_none, Point.mk.injEq, Circle.mk.injEq,
      CircleEvent.mk.injEq, Intersection.mk.injEq, exceptBindOk, exceptBindErr,
      exceptMapOk, exceptMapErr]

/-- C4 (counterexample): popping a circle event whose breakpoints are no
longer on the beach does not skip silently; `processEvent` hits the
assertion that the left breakpoint must be found on the beach, aborting the
computation instead of leaving the state unchanged. -/
theorem processEvent_stale_not_skipped_ce :
    processEvent ptsD staleState staleEvt =
      .error "assert failed: event left intersection not on beach" := by
  norm_num [processEvent, staleState, staleEvt, staleBeach, initState, adjacentOkE,
    beachLess, beachEquiv, findIdxOE, getSignI, getPt, getIntersectionI, ptsD,
    Option.some_ne_none, exceptBindOk, exceptBindErr]

/-- C4 (amended): whenever the adjacency assert passes, the beach-order
check passes, and the scan for an entry comparator-equivalent to the
event's left breakpoint completes without finding one, `processEvent`
returns the assertion error: a stale event aborts the computation, it is
not discarded without effect. -/
theorem processEvent_stale_aborts (pts : Nat → Point) (s : VState) (event : CircleEvent)
    (hadj : event.left_int.pt_right = event.right_int.pt_left)
    (hord : adjacentOkE (beachLess pts s.sweep_y) s.beach = .ok true)
    (hfind : findIdxOE (fun e => beachEquiv pts s.sweep_y e event.left_int) s.beach =
      .ok none) :
    processEvent pts s event =
      .error "assert failed: event left intersection not on beach" := by
  unfold processEvent
  rw [if_neg (not_ne_iff.mpr hadj), hord, exceptBindOk, if_neg (by simp), hfind,
    exceptBindOk]

/-- Witness for `processEvent_stale_aborts` at the concrete stale state
over `staleBeach2`. -/
theorem processEvent_stale_aborts_witness :
    staleEvt2.left_int.pt_right = staleEvt2.right_int.pt_left ∧
    adjacentOkE (beachLess ptsD staleState2.sweep_y) staleState2.beach = .ok true ∧
    findIdxOE (fun e => beachEquiv ptsD staleState2.sweep_y e staleEvt2.left_int)
      staleState2.beach = .ok none ∧
    processEvent ptsD staleState2 staleEvt2 =
      .error "assert failed: event left intersection not on beach" := by
  have h1 : staleEvt2.left_int.pt_right = staleEvt2.right_int.pt_left := rfl
  have h2 : adjacentOkE (beachLess ptsD staleState2.sweep_y) staleState2.beach = .ok true := by
    norm_num [adjacentOkE, beachLess, staleState2, staleBeach2, initState,
      Option.some_ne_none, exceptBindOk, exceptBindErr]
  have h3 : findIdxOE (fun e => beachEquiv ptsD staleState2.sweep_y e staleEvt2.left_int)
      staleState2.beach = .ok none := by
    norm_num [findIdxOE, beachEquiv, beachLess, staleState2, staleBeach2, staleEvt2,
      initState, getSignI, getPt, getIntersectionI, ptsD, Option.some_ne_none,
      exceptBindOk, exceptBindErr]
  exact ⟨h1, h2, h3, processEvent_stale_aborts ptsD staleState2 staleEvt2 h1 h2 h3⟩

set_option maxHeartbeats 3200000 in
/-- C5 (counterexample): in `tieState` the next site (site 0 of `ptsE`,
y = -5) and the pending circle event `evE` (key -5) tie.  The main-loop
step processes the circle event: the cursor stays at 0 and the queue
drains, whereas processing the site first would have advanced the cursor. -/
theorem computeStep_tie_prefers_event_ce :
    (ptsE 0).y = evtKey evE ∧
    (computeStep ptsE [0] 0 tieState).map (fun p => (p.1, p.2.events.length)) =
      .ok (0, 0) := by
  constructor
  · norm_num [ptsE, evE, evtKey, solveCircle, sqr, ratSqrtOf25, ratSqrtOf0, ratSqrtOf1,
      ratSqrtOf9, ratSqrtOf36, ratSqrtOf64]
  · norm_num [computeStep, stepEvent, stepSite, tieState, initState, evE, ptsE,
      processEvent, adjacentOkE, beachLess, beachEquiv, findIdxOE, getSignI, getPt,
      getIntersectionI, getIntersectionPts, circleQueueErase, circleQueueInsert,
      eraseFirstEventMatch, eventMatches, setInsertP, setInsertPE, cevLt, evtKey,
      solveCircle, sqr, eps, distance2d, points_match, circleEventEmission, getNode3,
      getNode2, perp, assocLookup, orderPoints, orderPair, insertSortedNat, interParents,
      sizeofPoint, defaultNode, addEdge, addTriplet, listModify, ratSqrtOf0, ratSqrtOf1,
      ratSqrtOf9, ratSqrtOf25, ratSqrtOf36, ratSqrtOf64, Option.some_ne_none, Except.map,
      exceptBindOk, exceptBindErr, exceptMapOk, exceptMapErr,
      Point.mk.injEq]

/-- C5 (amended): when both a next site and a pending event exist and the
site's y equals the top event's key, the main-loop step is the event step:
the circle event is processed before the site (the site is taken only when
its y is strictly greater). -/
theorem computeStep_tie_processes_event (pts : Nat → Point) (ordered : List Nat)
    (ii : Nat) (s : VState) (idx : Nat) (evt : CircleEvent)
    (h1 : ordered[ii]? = some idx) (h2 : s.events.getLast? = some evt)
    (h3 : (pts idx).y = evtKey evt) :
    computeStep pts ordered ii s = stepEvent pts ii s := by
  have hlt : ii < ordered.length := by
    rcases List.getElem?_eq_some.mp h1 with ⟨h, _⟩
    exact h
  have hne : s.events.isEmpty = false := by
    cases hE : s.events with
    | nil => rw [hE] at h2; simp at h2
    | cons x xs => rfl
  unfold computeStep
  rw [if_neg (by simp [hne]), if_neg (Nat.ne_of_lt hlt), h1, h2]
  simp only
  rw [if_neg (by rw [h3]; exact lt_irrefl _)]

/-- Witness for `computeStep_tie_processes_event` at the concrete tie
state. -/
theorem computeStep_tie_processes_event_witness :
    ([0] : List Nat)[0]? = some 0 ∧
    tieState.events.getLast? = some evE ∧
    (ptsE 0).y = evtKey evE ∧
    computeStep ptsE [0] 0 tieState = stepEvent ptsE 0 tieState := by
  have h1 : ([0] : List Nat)[0]? = some 0 := rfl
  have h2 : tieState.events.getLast? = some evE := rfl
  have h3 : (ptsE 0).y = evtKey evE := by
    norm_num [ptsE, evE, evtKey, solveCircle, sqr, ratSqrtOf25]
  exact ⟨h1, h2, h3, computeStep_tie_processes_event ptsE [0] 0 tieState 0 evE h1 h2 h3⟩

lemma orderPair_eq_iff (x y u v : Nat) :
    orderPair x y = orderPair u v ↔ (x = u ∧ y = v) ∨ (x = v ∧ y = u) := by
  unfold orderPair
  split_ifs <;> simp [Prod.mk.injEq] <;> omega

/-- C3 (counterexample): for the triple `ptsB` (sites on the radius-5
circle around the origin, all in the upper half plane) the circumcentre
(0, 0) lies outside the triangle and the odd perp sign is the AB side, so
the claim predicts edges V_AB to V_ABC plus V_ABC to V_BC and V_ABC to
V_CA, and forbids edges from V_AB to the other pair vertices.  With node
ids 0 = V_ABC, 1 = V_AB, 2 = V_BC, 3 = V_CA, the emission instead produces
the edges (0,1), (2,1), (3,1): V_AB is an endpoint of all three edges and
V_ABC is connected only to V_AB. -/
theorem circleEventEmission_far_hub_ce :
    perp ⟨0, 0⟩ (ptsB 0) (ptsB 1) < 0 ∧ perp ⟨0, 0⟩ (ptsB 1) (ptsB 2) > 0 ∧
    perp ⟨0, 0⟩ (ptsB 2) (ptsB 0) > 0 ∧
    (circleEventEmission ptsB initState 0 1 2 ⟨0, 0⟩).map
        (fun st => st.edges.map (fun e => (e.nodeA, e.nodeB))) =
      .ok [(0, 1), (2, 1), (3, 1)] := by
  refine ⟨by norm_num [perp, ptsB], by norm_num [perp, ptsB], by norm_num [perp, ptsB], ?_⟩
  norm_num [circleEventEmission, getNode3, getNode2, assocLookup, initState, perp, ptsB,
    orderPoints, orderPair, insertSortedNat, interParents, sizeofPoint, defaultNode,
    addEdge, addTriplet, listModify, solveCircle, sqr, exceptBindOk, exceptBindErr,
    exceptMapOk, exceptMapErr, Except.map, Option.some_ne_none, ratSqrtOf0, ratSqrtOf1,
    ratSqrtOf9, ratSqrtOf25, ratSqrtOf36, ratSqrtOf64]

/-- C3 (amended): at a circle event over three distinct sites whose
circumcentre fails the inside-triangle sign test, the emission (acting on a
fresh topology state, node ids 0 = V_ABC, 1 = V_AB, 2 = V_BC, 3 = V_CA)
produces exactly the three edges of `farEdges`: the odd-sign pair vertex
V_far is an endpoint of every emitted edge, V_ABC is connected only to
V_far, and no edge joins V_ABC to the other two pair vertices. -/
theorem circleEventEmission_far_vertex_is_hub (pts : Nat → Point) (a b c : Nat)
    (center : Point) (hab : a ≠ b) (hac : a ≠ c) (hbc : b ≠ c)
    (hout : ¬ ((perp center (pts a) (pts b) ≤ 0 ∧ perp center (pts b) (pts c) ≤ 0 ∧
                perp center (pts c) (pts a) ≤ 0) ∨
               (perp center (pts a) (pts b) ≥ 0 ∧ perp center (pts b) (pts c) ≥ 0 ∧
                perp center (pts c) (pts a) ≥ 0))) :
    (circleEventEmission pts initState a b c center).map
        (fun st => st.edges.map (fun e => (e.nodeA, e.nodeB))) =
      .ok (farEdges (perp center (pts a) (pts b)) (perp center (pts b) (pts c))
        (perp center (pts c) (pts a))) := by
  have hpAB_BC : ¬ ((orderPair a b).1 = (orderPair b c).1 ∧
      (orderPair a b).2 = (orderPair b c).2) := by
    have h : orderPair a b ≠ orderPair b c := by
      rw [Ne, orderPair_eq_iff]; omega
    simpa [Prod.ext_iff] using h
  have hpAB_AC : ¬ ((orderPair a b).1 = (orderPair a c).1 ∧
      (orderPair a b).2 = (orderPair a c).2) := by
    have h : orderPair a b ≠ orderPair a c := by
      rw [Ne, orderPair_eq_iff]; omega
    simpa [Prod.ext_iff] using h
  have hpBC_AC : ¬ ((orderPair b c).1 = (orderPair a c).1 ∧
      (orderPair b c).2 = (orderPair a c).2) := by
    have h : orderPair b c ≠ orderPair a c := by
      rw [Ne, orderPair_eq_iff]; omega
    simpa [Prod.ext_iff] using h
  have hout' : ¬ ((perp center (pts a) (pts b) ≤ 0 ∧ perp center (pts b) (pts c) ≤ 0 ∧
      perp center (pts c) (pts a) ≤ 0) ∨
      (0 ≤ perp center (pts a) (pts b) ∧ 0 ≤ perp center (pts b) (pts c) ∧
       0 ≤ perp center (pts c) (pts a))) := by
    simpa [ge_iff_le] using hout
  norm_num [circleEventEmission, getNode3, getNode2, assocLookup, initState,
    exceptBindOk, exceptBindErr, hpAB_BC, hpAB_AC, hpBC_AC, Prod.ext_iff,
    Option.some_ne_none]
  rw [if_neg hout']
  split_ifs with hb1 hb2 <;> simp only [farEdges, ge_iff_le]
  · rw [if_pos hb1]
    norm_num [addTriplet, addEdge, listModify, insertSortedNat, interParents,
      exceptMapOk, defaultNode]
  · rw [if_neg hb1, if_pos hb2]
    norm_num [addTriplet, addEdge, listModify, insertSortedNat, interParents,
      exceptMapOk, defaultNode]
  · rw [if_neg hb1, if_neg hb2]
    norm_num [addTriplet, addEdge, listModify, insertSortedNat, interParents,
      exceptMapOk, defaultNode]

/-- Witness for `circleEventEmission_far_vertex_is_hub` at the triple
`ptsC`, whose odd perp sign is the BC side. -/
theorem circleEventEmission_far_vertex_is_hub_witness :
    (0 : Nat) ≠ 1 ∧ (0 : Nat) ≠ 2 ∧ (1 : Nat) ≠ 2 ∧
    (¬ ((perp ⟨0, 0⟩ (ptsC 0) (ptsC 1) ≤ 0 ∧ perp ⟨0, 0⟩ (ptsC 1) (ptsC 2) ≤ 0 ∧
         perp ⟨0, 0⟩ (ptsC 2) (ptsC 0) ≤ 0) ∨
        (perp ⟨0, 0⟩ (ptsC 0) (ptsC 1) ≥ 0 ∧ perp ⟨0, 0⟩ (ptsC 1) (ptsC 2) ≥ 0 ∧
         perp ⟨0, 0⟩ (ptsC 2) (ptsC 0) ≥ 0))) ∧
    (circleEventEmission ptsC initState 0 1 2 ⟨0, 0⟩).map
        (fun st => st.edges.map (fun e => (e.nodeA, e.nodeB))) =
      .ok (farEdges (perp ⟨0, 0⟩ (ptsC 0) (ptsC 1)) (perp ⟨0, 0⟩ (ptsC 1) (ptsC 2))
        (perp ⟨0, 0⟩ (ptsC 2) (ptsC 0))) := by
  have h1 : (0 : Nat) ≠ 1 := by norm_num
  have h2 : (0 : Nat) ≠ 2 := by norm_num
  have h3 : (1 : Nat) ≠ 2 := by norm_num
  have h4 : ¬ ((perp ⟨0, 0⟩ (ptsC 0) (ptsC 1) ≤ 0 ∧ perp ⟨0, 0⟩ (ptsC 1) (ptsC 2) ≤ 0 ∧
      perp ⟨0, 0⟩ (ptsC 2) (ptsC 0) ≤ 0) ∨
      (perp ⟨0, 0⟩ (ptsC 0) (ptsC 1) ≥ 0 ∧ perp ⟨0, 0⟩ (ptsC 1) (ptsC 2) ≥ 0 ∧
       perp ⟨0, 0⟩ (ptsC 2) (ptsC 0) ≥ 0)) := by
    norm_num [perp, ptsC]
  exact ⟨h1, h2, h3, h4,
    circleEventEmission_far_vertex_is_hub ptsC 0 1 2 ⟨0, 0⟩ h1 h2 h3 h4⟩

lemma sortPair_minmax (x y : Nat) :
    (if x > y then (y, x) else (x, y)) = (min x y, max x y) := by
  split_ifs with h <;> simp [Prod.mk.injEq] <;> omega

lemma orderPoints_minmax (a b c : Nat) :
    orderPoints a b c = (min (min a b) (min (max a b) c),
      max (min a b) (min (max a b) c), max (max a b) c) := by
  simp only [orderPoints, sortPair_minmax]

lemma orderPoints_swap12 (a b c : Nat) : orderPoints b a c = orderPoints a b c := by
  rw [orderPoints_minmax, orderPoints_minmax]
  simp only [Prod.mk.injEq]
  refine ⟨?_, ?_, ?_⟩ <;> omega

lemma orderPoints_swap23 (a b c : Nat) : orderPoints a c b = orderPoints a b c := by
  rw [orderPoints_minmax, orderPoints_minmax]
  simp only [Prod.mk.injEq]
  refine ⟨?_, ?_, ?_⟩ <;> omega

lemma orderPair_comm (p q : Nat) : orderPair q p = orderPair p q := by
  unfold orderPair
  split_ifs <;> simp [Prod.mk.injEq] <;> omega

/-- C10: vertex interning is order-insensitive and never leaves a null
node behind.  For any state whose node map is well formed: a second
`getNode` call with any permutation of the same triple (or the swapped
pair) returns the same node id and leaves the state unchanged (stated as
the bind collapsing), and the state after a `getNode` call still maps
every key to a non-null node. -/
theorem getNode_interning_order_insensitive (pts : Nat → Point) (s : VState)
    (hwf : NodesWF s) (a b c a2 b2 c2 p q : Nat)
    (hperm : (a2, b2, c2) = (a, b, c) ∨ (a2, b2, c2) = (a, c, b) ∨
             (a2, b2, c2) = (b, a, c) ∨ (a2, b2, c2) = (b, c, a) ∨
             (a2, b2, c2) = (c, a, b) ∨ (a2, b2, c2) = (c, b, a)) :
    ((getNode3 pts s a b c >>= fun r => getNode3 pts r.1 a2 b2 c2) =
      getNode3 pts s a b c) ∧
    ((getNode2 pts s p q >>= fun r => getNode2 pts r.1 q p) = getNode2 pts s p q) ∧
    nodesWFE (getNode3 pts s a b c) ∧ nodesWFE (getNode2 pts s p q) := by
  have hk : orderPoints a2 b2 c2 = orderPoints a b c := by
    rcases hperm with h | h | h | h | h | h <;>
      (simp only [Prod.mk.injEq] at h; obtain ⟨h1, h2, h3⟩ := h; rw [h1, h2, h3]) <;>
      (rw [orderPoints_minmax, orderPoints_minmax]; simp only [Prod.mk.injEq];
        refine ⟨?_, ?_, ?_⟩ <;> omega)
  refine ⟨?_, ?_, ?_, ?_⟩
  · unfold getNode3
    rw [hk]
    cases hL : assocLookup s.nodes (some (orderPoints a b c).1,
        some (orderPoints a b c).2.1, some (orderPoints a b c).2.2) with
    | none => simp [hL, exceptBindOk, assocLookup]
    | some v =>
      cases v with
      | none => simp [hL, exceptBindErr]
      | some id => simp [hL, exceptBindOk]
  · unfold getNode2
    rw [orderPair_comm p q]
    cases hL : assocLookup s.nodes (some (orderPair p q).1,
        some (orderPair p q).2, none) with
    | none => simp [hL, exceptBindOk, assocLookup]
    | some v =>
      cases v with
      | none => simp [hL, exceptBindErr]
      | some id => simp [hL, exceptBindOk]
  · unfold getNode3
    cases hL : assocLookup s.nodes (some (orderPoints a b c).1,
        some (orderPoints a b c).2.1, some (orderPoints a b c).2.2) with
    | none =>
      simp only [hL, nodesWFE, NodesWF]
      intro kv hkv
      rcases List.mem_cons.mp hkv with h | h
      · rw [h]; simp
      · exact hwf kv h
    | some v =>
      cases v with
      | none => simp [hL, nodesWFE]
      | some id => simpa [hL, nodesWFE, NodesWF] using hwf
  · unfold getNode2
    cases hL : assocLookup s.nodes (some (orderPair p q).1,
        some (orderPair p q).2, none) with
    | none =>
      simp only [hL, nodesWFE, NodesWF]
      intro kv hkv
      rcases List.mem_cons.mp hkv with h | h
      · rw [h]; simp
      · exact hwf kv h
    | some v =>
      cases v with
      | none => simp [hL, nodesWFE]
      | some id => simpa [hL, nodesWFE, NodesWF] using hwf

/-- Witness for `getNode_interning_order_insensitive`: the fresh state, the
triple 0, 1, 2 against its rotation 2, 0, 1, and the pair 0, 1. -/
theorem getNode_interning_order_insensitive_witness :
    ((getNode3 ptsD initState 0 1 2 >>= fun r => getNode3 ptsD r.1 2 0 1) =
      getNode3 ptsD initState 0 1 2) ∧
    ((getNode2 ptsD initState 0 1 >>= fun r => getNode2 ptsD r.1 1 0) =
      getNode2 ptsD initState 0 1) ∧
    nodesWFE (getNode3 ptsD initState 0 1 2) ∧ nodesWFE (getNode2 ptsD initState 0 1) :=
  getNode_interning_order_insensitive ptsD initState
    (by intro kv hkv; simp [initState] at hkv) 0 1 2 2 0 1 0 1 (by decide)

end Vor
